import Mathlib

/-!
Verification of the synchronous completion bridge of
`src/rust/src/webrtc/sdp_observer.rs` (ringrtc-signald).

Shallow embedding conventions:

- Raw pointers (`*const T`) are modelled as `Ptr := Nat`, where `0` is the
  null pointer.
- `common::Result<T>` is `Result<T, failure::Error>`; the dynamic error is
  modelled by `AnyError`, restricted to the errors this module can produce:
  a `RingRtcError` variant, or the `NulError` raised by `CString::new` when
  the input string contains a NUL byte.
- `FutureResult<T>` is `Arc<(Mutex<(bool, T)>, Condvar)>` (constructed in
  this file as `Arc::new((Mutex::new((false, init)), Condvar::new()))`).
  Its shared state is modelled as a record of the poison bit of the mutex,
  the `bool` done flag and the stored value.  A `Mutex::lock` succeeds
  exactly when the poison bit is clear.
- Callbacks (`on_create_success` etc.) are state transformers returning the
  new observer state together with a Bool recording whether
  `Condvar::notify_one` was called.
- `get_result` blocks on the condition variable while the done flag is
  false; blocking cannot be executed in a pure embedding, so its outcome is
  an inductive: either `blocks` (the wait loop is entered) or `returns r`.
- The foreign engine (`Rust_*` extern functions) is external to the
  repository; each embedded function takes the relevant foreign behaviour
  as an explicit function argument.
- The Display rendering of a `failure::Error` (used by format! in
  `get_result`; the Display instances live outside this repository) is
  modelled by an explicit argument `fmt : AnyError → String`.
-/

/-- Model of a raw pointer; 0 is the null pointer. -/
abbrev Ptr := Nat

/-- Variants of `RingRtcError` (crate::error, outside src/) used by
`sdp_observer.rs`; each carries exactly the payload the call sites pass. -/
inductive RingRtcError where
  | GetOfferDescription
  | ConvertSdpAnswer
  | ConvertSdpOffer
  | CreateSessionDescriptionObserver (err_message : String) (err_type : Int)
  | CreateSessionDescriptionObserverResult (msg : String)
  | SetSessionDescriptionObserver (err_message : String) (err_type : Int)
  | SetSessionDescriptionObserverResult (msg : String)
  | MutexPoisoned (which : String)
deriving DecidableEq

/-- Model of the dynamic error type `failure::Error` behind `common::Result`,
restricted to the errors this module can produce: a `RingRtcError` (via
`.into()`), or the `std::ffi::NulError` from `CString::new` (via `?`). -/
inductive AnyError where
  | ringRtc (e : RingRtcError)
  | nulError
deriving DecidableEq

deriving instance DecidableEq for Except

/-- Model of `common::Result<T> = Result<T, failure::Error>`. -/
abbrev RTCResult (α : Type) := Except AnyError α

/-- Shared state of `FutureResult<T> = Arc<(Mutex<(bool, T)>, Condvar)>`
(crate::core::util, constructed in sdp_observer.rs): the poison bit of the
mutex, the done flag `guard.0` and the stored value `guard.1`. -/
structure FutureResult (T : Type) where
  poisoned : Bool
  done : Bool
  value : T
deriving DecidableEq

/-- Rust wrapper around the WebRTC C++ SessionDescriptionInterface:
holds the raw pointer `sd_interface`. -/
structure SessionDescriptionInterface where
  sd_interface : Ptr
deriving DecidableEq

/-- `SessionDescriptionInterface::new`. -/
def SessionDescriptionInterface.new (sd_interface : Ptr) : SessionDescriptionInterface :=
  { sd_interface := sd_interface }

/-- `SessionDescriptionInterface::get_rffi_interface`. -/
def SessionDescriptionInterface.get_rffi_interface (s : SessionDescriptionInterface) : Ptr :=
  s.sd_interface

/-- FFI resource events emitted by `get_description`: copying the C string
out of a foreign buffer, and `libc::free` of that buffer. -/
inductive FfiEvent where
  | copyString (buf : Ptr)
  | free (buf : Ptr)
deriving DecidableEq

/-- `SessionDescriptionInterface::get_description`.  The foreign behaviour is
passed in: `getOfferDescription` models `Rust_getOfferDescription` (returns
the buffer pointer, 0 for null) and `readCStr` models reading the C string
contents at a non-null buffer (`CStr::from_ptr(..).to_string_lossy()`; the
contents came from a Rust string, so lossy conversion is the identity on
them).  Besides the result, the list of resource events is returned in
program order. -/
def SessionDescriptionInterface.get_description
    (getOfferDescription : Ptr → Ptr) (readCStr : Ptr → String)
    (s : SessionDescriptionInterface) : RTCResult String × List FfiEvent :=
  let string_ptr := getOfferDescription s.sd_interface
  if string_ptr = 0 then
    (.error (.ringRtc .GetOfferDescription), [])
  else
    let description := readCStr string_ptr
    (.ok description, [.copyString string_ptr, .free string_ptr])

/-- `CString::new`: fails with `NulError` exactly when the string contains a
NUL byte (in UTF-8 a NUL byte occurs only as the NUL character); otherwise
the C string carries the same bytes. -/
def CString.new (s : String) : RTCResult String :=
  if s.data.contains (Char.ofNat 0) then .error .nulError else .ok s

/-- `SessionDescriptionInterface::create_sdp_answer`.  `createAnswer` models
`Rust_createSessionDescriptionAnswer` (argument: the C string contents;
result: the returned pointer, 0 for null). -/
def SessionDescriptionInterface.create_sdp_answer
    (createAnswer : String → Ptr) (session_desc : String) :
    RTCResult SessionDescriptionInterface := do
  let sdp ← CString.new session_desc
  let answer := createAnswer sdp
  if answer = 0 then
    .error (.ringRtc .ConvertSdpAnswer)
  else
    .ok (SessionDescriptionInterface.new answer)

/-- `SessionDescriptionInterface::create_sdp_offer`.  `createOffer` models
`Rust_createSessionDescriptionOffer`. -/
def SessionDescriptionInterface.create_sdp_offer
    (createOffer : String → Ptr) (session_desc : String) :
    RTCResult SessionDescriptionInterface := do
  let sdp ← CString.new session_desc
  let offer := createOffer sdp
  if offer = 0 then
    .error (.ringRtc .ConvertSdpOffer)
  else
    .ok (SessionDescriptionInterface.new offer)

/-- Observer object for creating a session description: the completion cell
and the pointer to the C++ counterpart observer. -/
structure CreateSessionDescriptionObserver where
  condition : FutureResult (RTCResult Ptr)
  rffi_csd_observer : Ptr
deriving DecidableEq

/-- `CreateSessionDescriptionObserver::new`: cell is
`(Mutex::new((false, Ok(ptr::null()))), Condvar::new())`, counterpart null. -/
def CreateSessionDescriptionObserver.new : CreateSessionDescriptionObserver :=
  { condition := { poisoned := false, done := false, value := .ok 0 }
    rffi_csd_observer := 0 }

/-- `CreateSessionDescriptionObserver::on_create_success`: under
`if let Ok(guard) = mtx.lock()` stores `Ok(desc)`, sets the done flag and
notifies the condvar; when the mutex is poisoned the lock fails and the body
is skipped.  Returns the new state and whether `notify_one` ran. -/
def CreateSessionDescriptionObserver.on_create_success
    (o : CreateSessionDescriptionObserver) (desc : Ptr) :
    CreateSessionDescriptionObserver × Bool :=
  if o.condition.poisoned then
    (o, false)
  else
    ({ o with condition := { o.condition with value := .ok desc, done := true } }, true)

/-- `CreateSessionDescriptionObserver::on_create_failure`: under the lock
stores `Err(RingRtcError::CreateSessionDescriptionObserver(msg, type))`,
sets the done flag and notifies; skipped when the mutex is poisoned. -/
def CreateSessionDescriptionObserver.on_create_failure
    (o : CreateSessionDescriptionObserver) (err_message : String) (err_type : Int) :
    CreateSessionDescriptionObserver × Bool :=
  if o.condition.poisoned then
    (o, false)
  else
    ({ o with condition :=
        { o.condition with
          value := .error (.ringRtc (.CreateSessionDescriptionObserver err_message err_type))
          done := true } }, true)

/-- Outcome of a `get_result` call: either the wait loop is entered (the
done flag was false, the thread parks on the condvar) or a value is
returned. -/
inductive GetResultOutcome (T : Type) where
  | blocks
  | returns (r : RTCResult T)
deriving DecidableEq

/-- Whether the outcome is the blocking one. -/
def GetResultOutcome.isBlocked : GetResultOutcome T → Bool
  | .blocks => true
  | .returns _ => false

/-- `CreateSessionDescriptionObserver::get_result`: a poisoned mutex makes
the lock fail, giving `Err(MutexPoisoned(..))`; while the done flag is false
the thread waits on the condvar (outcome `blocks`); once done, `Ok(v)` is
rewrapped as a new interface and a stored error is rendered through Display
(`fmt`) and wrapped in `CreateSessionDescriptionObserverResult`. -/
def CreateSessionDescriptionObserver.get_result
    (fmt : AnyError → String) (o : CreateSessionDescriptionObserver) :
    GetResultOutcome SessionDescriptionInterface :=
  if o.condition.poisoned then
    .returns (.error (.ringRtc (.MutexPoisoned "CreateSessionDescription condvar mutex")))
  else if o.condition.done then
    match o.condition.value with
    | .ok v => .returns (.ok (SessionDescriptionInterface.new v))
    | .error e =>
        .returns (.error (.ringRtc (.CreateSessionDescriptionObserverResult (fmt e))))
  else
    .blocks

/-- `CreateSessionDescriptionObserver::set_rffi_observer`. -/
def CreateSessionDescriptionObserver.set_rffi_observer
    (o : CreateSessionDescriptionObserver) (observer : Ptr) :
    CreateSessionDescriptionObserver :=
  { o with rffi_csd_observer := observer }

/-- `CreateSessionDescriptionObserver::get_rffi_observer`. -/
def CreateSessionDescriptionObserver.get_rffi_observer
    (o : CreateSessionDescriptionObserver) : Ptr :=
  o.rffi_csd_observer

/-- `create_csd_observer`: builds a fresh observer, asks the foreign engine
for the counterpart (`Rust_createCreateSessionDescriptionObserver`, whose
return value — possibly null — is the argument `rffi_return`), records it
with `set_rffi_observer`, and returns the boxed observer.  The function has
no failure path. -/
def create_csd_observer (rffi_return : Ptr) : CreateSessionDescriptionObserver :=
  CreateSessionDescriptionObserver.set_rffi_observer
    CreateSessionDescriptionObserver.new rffi_return

/-- Observer object for setting a session description: the completion cell
(payload type unit) and the pointer to the C++ counterpart observer. -/
structure SetSessionDescriptionObserver where
  condition : FutureResult (RTCResult Unit)
  rffi_ssd_observer : Ptr
deriving DecidableEq

/-- `SetSessionDescriptionObserver::new`: cell is
`(Mutex::new((false, Ok(()))), Condvar::new())`, counterpart null. -/
def SetSessionDescriptionObserver.new : SetSessionDescriptionObserver :=
  { condition := { poisoned := false, done := false, value := .ok () }
    rffi_ssd_observer := 0 }

/-- `SetSessionDescriptionObserver::on_set_success`: under the lock stores
`Ok(())`, sets the done flag and notifies; skipped when the mutex is
poisoned. -/
def SetSessionDescriptionObserver.on_set_success
    (o : SetSessionDescriptionObserver) :
    SetSessionDescriptionObserver × Bool :=
  if o.condition.poisoned then
    (o, false)
  else
    ({ o with condition := { o.condition with value := .ok (), done := true } }, true)

/-- `SetSessionDescriptionObserver::on_set_failure`: under the lock stores
`Err(RingRtcError::SetSessionDescriptionObserver(msg, type))`, sets the done
flag and notifies; skipped when the mutex is poisoned. -/
def SetSessionDescriptionObserver.on_set_failure
    (o : SetSessionDescriptionObserver) (err_message : String) (err_type : Int) :
    SetSessionDescriptionObserver × Bool :=
  if o.condition.poisoned then
    (o, false)
  else
    ({ o with condition :=
        { o.condition with
          value := .error (.ringRtc (.SetSessionDescriptionObserver err_message err_type))
          done := true } }, true)

/-- `SetSessionDescriptionObserver::get_result`: same shape as the create
variant, with `MutexPoisoned("SetSessionDescription condvar mutex")` on a
failed lock and `SetSessionDescriptionObserverResult(fmt e)` for a stored
error. -/
def SetSessionDescriptionObserver.get_result
    (fmt : AnyError → String) (o : SetSessionDescriptionObserver) :
    GetResultOutcome Unit :=
  if o.condition.poisoned then
    .returns (.error (.ringRtc (.MutexPoisoned "SetSessionDescription condvar mutex")))
  else if o.condition.done then
    match o.condition.value with
    | .ok _ => .returns (.ok ())
    | .error e =>
        .returns (.error (.ringRtc (.SetSessionDescriptionObserverResult (fmt e))))
  else
    .blocks

/-- `SetSessionDescriptionObserver::set_rffi_observer`. -/
def SetSessionDescriptionObserver.set_rffi_observer
    (o : SetSessionDescriptionObserver) (observer : Ptr) :
    SetSessionDescriptionObserver :=
  { o with rffi_ssd_observer := observer }

/-- `SetSessionDescriptionObserver::get_rffi_observer`. -/
def SetSessionDescriptionObserver.get_rffi_observer
    (o : SetSessionDescriptionObserver) : Ptr :=
  o.rffi_ssd_observer

/-- `create_ssd_observer`: builds a fresh observer, records the pointer
returned by the foreign engine (`Rust_createSetSessionDescriptionObserver`,
argument `rffi_return`, possibly null) and returns the boxed observer.  The
function has no failure path. -/
def create_ssd_observer (rffi_return : Ptr) : SetSessionDescriptionObserver :=
  SetSessionDescriptionObserver.set_rffi_observer
    SetSessionDescriptionObserver.new rffi_return

/-- Modelled from the spec: `get_object_from_cpp` (crate::core::util, not
under src/) recovers the waiting object from a correlation token: the token
is only ever a re-presentation of an address handed out at bridge creation,
so recovery is the lookup of the live object at that address, and it fails
(the shim then does nothing) when no live object sits there.  The address
space is modelled as a partial map `world`. -/
def get_object_from_cpp (world : Nat → Option α) (token : Nat) : Option α :=
  world token

/-- `csd_observer_OnSuccess`: recovers the CreateSessionDescriptionObserver
from the token and forwards `on_create_success(desc)` to it; a failed
recovery leaves the world unchanged.  The result is the updated address
space. -/
def csd_observer_OnSuccess
    (world : Nat → Option CreateSessionDescriptionObserver)
    (csd_observer : Nat) (desc : Ptr) :
    Nat → Option CreateSessionDescriptionObserver :=
  match get_object_from_cpp world csd_observer with
  | some v => fun t =>
      if t = csd_observer then some (v.on_create_success desc).1 else world t
  | none => world

/-- `csd_observer_OnFailure`: reads the C error message into a Rust string
(modelled directly as `err_message : String`), recovers the observer from
the token and forwards `on_create_failure`; a failed recovery leaves the
world unchanged. -/
def csd_observer_OnFailure
    (world : Nat → Option CreateSessionDescriptionObserver)
    (csd_observer : Nat) (err_message : String) (err_type : Int) :
    Nat → Option CreateSessionDescriptionObserver :=
  match get_object_from_cpp world csd_observer with
  | some v => fun t =>
      if t = csd_observer then some (v.on_create_failure err_message err_type).1 else world t
  | none => world

/-- `ssd_observer_OnSuccess`: recovers the SetSessionDescriptionObserver
from the token and forwards `on_set_success` to it. -/
def ssd_observer_OnSuccess
    (world : Nat → Option SetSessionDescriptionObserver)
    (ssd_observer : Nat) :
    Nat → Option SetSessionDescriptionObserver :=
  match get_object_from_cpp world ssd_observer with
  | some v => fun t =>
      if t = ssd_observer then some v.on_set_success.1 else world t
  | none => world

/-- `ssd_observer_OnFailure`: recovers the SetSessionDescriptionObserver
from the token and forwards `on_set_failure`. -/
def ssd_observer_OnFailure
    (world : Nat → Option SetSessionDescriptionObserver)
    (ssd_observer : Nat) (err_message : String) (err_type : Int) :
    Nat → Option SetSessionDescriptionObserver :=
  match get_object_from_cpp world ssd_observer with
  | some v => fun t =>
      if t = ssd_observer then some (v.on_set_failure err_message err_type).1 else world t
  | none => world

/-- Operations of the create-description bridge that run after construction:
the two callback deliveries and recording the counterpart pointer.  Used to
state state-machine invariants over every reachable mutation. -/
inductive CSDOp where
  | createSuccess (desc : Ptr)
  | createFailure (err_message : String) (err_type : Int)
  | setRffi (observer : Ptr)
deriving DecidableEq

/-- Apply one operation to a CreateSessionDescriptionObserver. -/
def CreateSessionDescriptionObserver.applyOp
    (o : CreateSessionDescriptionObserver) (op : CSDOp) :
    CreateSessionDescriptionObserver :=
  match op with
  | .createSuccess desc => (o.on_create_success desc).1
  | .createFailure m c => (o.on_create_failure m c).1
  | .setRffi p => o.set_rffi_observer p

/-- Operations of the set-description bridge that run after construction. -/
inductive SSDOp where
  | setSuccess
  | setFailure (err_message : String) (err_type : Int)
  | setRffi (observer : Ptr)
deriving DecidableEq

/-- Apply one operation to a SetSessionDescriptionObserver. -/
def SetSessionDescriptionObserver.applyOp
    (o : SetSessionDescriptionObserver) (op : SSDOp) :
    SetSessionDescriptionObserver :=
  match op with
  | .setSuccess => o.on_set_success.1
  | .setFailure m c => (o.on_set_failure m c).1
  | .setRffi p => o.set_rffi_observer p

/-- A pass-through foreign engine for the round-trip property: a heap of
description objects; creating a description object stores the given text
verbatim and rendering it back returns the stored text verbatim. -/
structure PassthroughEngine where
  store : List String
deriving DecidableEq

/-- Pass-through `Rust_createSessionDescriptionOffer`: allocates a new
object holding the text; the returned pointer (index + 1) is never null. -/
def PassthroughEngine.createOffer (e : PassthroughEngine) (s : String) :
    PassthroughEngine × Ptr :=
  ({ store := e.store ++ [s] }, e.store.length + 1)

/-- Text stored at an object pointer of the pass-through engine. -/
def PassthroughEngine.readDescription (e : PassthroughEngine) (p : Ptr) :
    Option String :=
  e.store.get? (p - 1)

/-- Pass-through `Rust_getOfferDescription`: renders the object at `p` into
a fresh C string buffer; the buffer address is modelled by reusing `p`
(buffer addresses live in their own space), and null is returned when no
object lives at `p`. -/
def PassthroughEngine.getOfferDescription (e : PassthroughEngine) (p : Ptr) : Ptr :=
  if (e.readDescription p).isSome then p else 0

/-- Reading the C string contents of a buffer of the pass-through engine. -/
def PassthroughEngine.readCStr (e : PassthroughEngine) (p : Ptr) : String :=
  (e.readDescription p).getD ""

/-- The round trip `to_text(from_text(s, Offer))` against the pass-through
engine: `create_sdp_offer` with the engine in state `e`, then
`get_description` against the engine state after that creation. -/
def roundTripOffer (e : PassthroughEngine) (s : String) : RTCResult String :=
  match SessionDescriptionInterface.create_sdp_offer
      (fun t => (e.createOffer t).2) s with
  | .error err => .error err
  | .ok sd =>
      let e1 := (e.createOffer s).1
      (sd.get_description e1.getOfferDescription e1.readCStr).1

/-- C1 (counterexample): on a fresh create-observer, deliver success with
pointer 1 and then success with pointer 2; get_result returns the interface
built from 2, not from the first stored pointer 1 — the second delivery did
overwrite the stored value. -/
theorem double_delivery_overwrite_cex :
    CreateSessionDescriptionObserver.get_result (fun _ => "")
        ((CreateSessionDescriptionObserver.on_create_success
          (CreateSessionDescriptionObserver.on_create_success
            CreateSessionDescriptionObserver.new 1).1 2).1)
      = .returns (.ok (SessionDescriptionInterface.new 2))
    ∧ decide (SessionDescriptionInterface.new 2 = SessionDescriptionInterface.new 1)
      = false := by
  exact ⟨rfl, rfl⟩

/-- Helper: no operation of the create-description bridge changes the
poison bit of the completion-cell mutex. -/
theorem applyOp_preserves_poisoned
    (o : CreateSessionDescriptionObserver) (op : CSDOp) :
    (o.applyOp op).condition.poisoned = o.condition.poisoned := by
  cases op <;>
    simp only [CreateSessionDescriptionObserver.applyOp,
      CreateSessionDescriptionObserver.on_create_success,
      CreateSessionDescriptionObserver.on_create_failure,
      CreateSessionDescriptionObserver.set_rffi_observer] <;>
    (try split) <;> rfl

/-- Helper: no operation of the set-description bridge changes the poison
bit of the completion-cell mutex. -/
theorem applyOp_preserves_poisoned_ssd
    (o : SetSessionDescriptionObserver) (op : SSDOp) :
    (o.applyOp op).condition.poisoned = o.condition.poisoned := by
  cases op <;>
    simp only [SetSessionDescriptionObserver.applyOp,
      SetSessionDescriptionObserver.on_set_success,
      SetSessionDescriptionObserver.on_set_failure,
      SetSessionDescriptionObserver.set_rffi_observer] <;>
    (try split) <;> rfl

/-- C1 (amended): a later delivery does overwrite the stored value, for all
four callbacks of both bridges: on an observer whose mutex is not poisoned,
whatever operation ran before (a first success or failure delivery
included), get_result after a final on_create_success returns that success,
after a final on_create_failure returns that failure, and likewise for
on_set_success / on_set_failure — the last delivery always wins. -/
theorem double_delivery_overwrites
    (oc : CreateSessionDescriptionObserver) (os : SetSessionDescriptionObserver)
    (op : CSDOp) (op2 : SSDOp) (fmt : AnyError → String)
    (d : Ptr) (m : String) (c : Int)
    (hc : oc.condition.poisoned = false) (hs : os.condition.poisoned = false) :
    CreateSessionDescriptionObserver.get_result fmt
        ((oc.applyOp op).on_create_success d).1
      = .returns (.ok (SessionDescriptionInterface.new d))
    ∧ CreateSessionDescriptionObserver.get_result fmt
        ((oc.applyOp op).on_create_failure m c).1
      = .returns (.error (.ringRtc (.CreateSessionDescriptionObserverResult
          (fmt (.ringRtc (.CreateSessionDescriptionObserver m c))))))
    ∧ SetSessionDescriptionObserver.get_result fmt
        ((os.applyOp op2).on_set_success).1
      = .returns (.ok ())
    ∧ SetSessionDescriptionObserver.get_result fmt
        ((os.applyOp op2).on_set_failure m c).1
      = .returns (.error (.ringRtc (.SetSessionDescriptionObserverResult
          (fmt (.ringRtc (.SetSessionDescriptionObserver m c)))))) := by
  have hc2 : (oc.applyOp op).condition.poisoned = false := by
    rw [applyOp_preserves_poisoned, hc]
  have hs2 : (os.applyOp op2).condition.poisoned = false := by
    rw [applyOp_preserves_poisoned_ssd, hs]
  refine ⟨?_, ?_, ?_, ?_⟩ <;>
    simp [CreateSessionDescriptionObserver.get_result,
      CreateSessionDescriptionObserver.on_create_success,
      CreateSessionDescriptionObserver.on_create_failure,
      SetSessionDescriptionObserver.get_result,
      SetSessionDescriptionObserver.on_set_success,
      SetSessionDescriptionObserver.on_set_failure,
      hc2, hs2, SessionDescriptionInterface.new]

/-- Witness for `double_delivery_overwrites`: fresh observers receive a
first delivery (success 3 on the create bridge, failure on the set bridge);
each of the four callbacks delivered second then determines get_result. -/
theorem double_delivery_overwrites_witness :
    CreateSessionDescriptionObserver.get_result (fun _ => "x")
        ((CreateSessionDescriptionObserver.new.applyOp
          (CSDOp.createSuccess 3)).on_create_success 4).1
      = .returns (.ok (SessionDescriptionInterface.new 4))
    ∧ CreateSessionDescriptionObserver.get_result (fun _ => "x")
        ((CreateSessionDescriptionObserver.new.applyOp
          (CSDOp.createSuccess 3)).on_create_failure "late" 2).1
      = .returns (.error (.ringRtc (.CreateSessionDescriptionObserverResult "x")))
    ∧ SetSessionDescriptionObserver.get_result (fun _ => "x")
        ((SetSessionDescriptionObserver.new.applyOp
          (SSDOp.setFailure "first" 1)).on_set_success).1
      = .returns (.ok ())
    ∧ SetSessionDescriptionObserver.get_result (fun _ => "x")
        ((SetSessionDescriptionObserver.new.applyOp
          (SSDOp.setFailure "first" 1)).on_set_failure "late" 2).1
      = .returns (.error (.ringRtc (.SetSessionDescriptionObserverResult "x"))) :=
  double_delivery_overwrites CreateSessionDescriptionObserver.new
    SetSessionDescriptionObserver.new (CSDOp.createSuccess 3)
    (SSDOp.setFailure "first" 1) (fun _ => "x") 4 "late" 2 rfl rfl

/-- C2 (counterexample): with the foreign engine returning a null
counterpart, create_csd_observer (and create_ssd_observer) does not fail:
it returns a bridge with a fresh pending cell and the null pointer recorded
(its return type has no failure path at all), and get_result on that bridge
finds the cell pending (it would block), so no error was surfaced at
creation. -/
theorem create_observer_null_cex :
    create_csd_observer 0
      = { condition := { poisoned := false, done := false, value := .ok 0 }
          rffi_csd_observer := 0 }
    ∧ create_ssd_observer 0
      = { condition := { poisoned := false, done := false, value := .ok () }
          rffi_ssd_observer := 0 }
    ∧ CreateSessionDescriptionObserver.get_result (fun _ => "") (create_csd_observer 0)
      = .blocks := by
  exact ⟨rfl, rfl, rfl⟩

/-- C2 (amended): create_csd_observer and create_ssd_observer never fail;
for every counterpart pointer the foreign engine returns — null included —
they return a bridge whose completion cell is fresh (unpoisoned, pending,
initial stored value) and whose recorded counterpart is exactly that
pointer; no CounterpartCreationFailed error exists on this path. -/
theorem create_observer_records_counterpart (p : Ptr) :
    create_csd_observer p
      = { condition := { poisoned := false, done := false, value := .ok 0 }
          rffi_csd_observer := p }
    ∧ create_ssd_observer p
      = { condition := { poisoned := false, done := false, value := .ok () }
          rffi_ssd_observer := p } :=
  ⟨rfl, rfl⟩

/-- C3 (code evaluated at the failing input): after
on_create_failure with message "negotiation timeout" and code 7, the cell
stores Err(CreateSessionDescriptionObserver(msg, 7)) with message and code
intact, but get_result does not return that stored error: it returns
Err(CreateSessionDescriptionObserverResult(fmt e)) — the Display rendering
of the stored error, wrapped in a different variant (shown here with the
concrete rendering fmt = fun _ => "rendered"), which is not the variant
carrying the structured message/code payload. -/
theorem get_result_after_failure_formats_error :
    ((CreateSessionDescriptionObserver.on_create_failure
        CreateSessionDescriptionObserver.new "negotiation timeout" 7).1).condition.value
      = .error (.ringRtc (.CreateSessionDescriptionObserver "negotiation timeout" 7))
    ∧ CreateSessionDescriptionObserver.get_result (fun _ => "rendered")
        ((CreateSessionDescriptionObserver.on_create_failure
          CreateSessionDescriptionObserver.new "negotiation timeout" 7).1)
      = .returns (.error (.ringRtc (.CreateSessionDescriptionObserverResult "rendered")))
    ∧ decide ((RingRtcError.CreateSessionDescriptionObserverResult "rendered")
        = .CreateSessionDescriptionObserver "negotiation timeout" 7)
      = false := by
  exact ⟨rfl, rfl, by decide⟩

/-- C4: the Done state is absorbing — every post-construction operation of
either bridge (callback delivery or recording the counterpart) leaves a set
done flag set, and get_result on a cell whose done flag is set never has
the blocking outcome (the condvar wait loop is not entered). -/
theorem done_is_absorbing :
    (∀ (o : CreateSessionDescriptionObserver) (op : CSDOp) (fmt : AnyError → String),
      o.condition.done = true →
        (o.applyOp op).condition.done = true
        ∧ (CreateSessionDescriptionObserver.get_result fmt o).isBlocked = false)
    ∧ (∀ (o : SetSessionDescriptionObserver) (op : SSDOp) (fmt : AnyError → String),
      o.condition.done = true →
        (o.applyOp op).condition.done = true
        ∧ (SetSessionDescriptionObserver.get_result fmt o).isBlocked = false) := by
  constructor
  · intro o op fmt h
    constructor
    · cases op <;>
        simp only [CreateSessionDescriptionObserver.applyOp,
          CreateSessionDescriptionObserver.on_create_success,
          CreateSessionDescriptionObserver.on_create_failure,
          CreateSessionDescriptionObserver.set_rffi_observer] <;>
        (try split) <;> simp_all
    · cases hp : o.condition.poisoned <;>
        cases hv : o.condition.value <;>
        simp [CreateSessionDescriptionObserver.get_result, h, hp, hv,
          GetResultOutcome.isBlocked]
  · intro o op fmt h
    constructor
    · cases op <;>
        simp only [SetSessionDescriptionObserver.applyOp,
          SetSessionDescriptionObserver.on_set_success,
          SetSessionDescriptionObserver.on_set_failure,
          SetSessionDescriptionObserver.set_rffi_observer] <;>
        (try split) <;> simp_all
    · cases hp : o.condition.poisoned <;>
        cases hv : o.condition.value <;>
        simp [SetSessionDescriptionObserver.get_result, h, hp, hv,
          GetResultOutcome.isBlocked]

/-- Witness for `done_is_absorbing`: a done create-observer hit by a late
failure delivery keeps its done flag, and its get_result does not block;
likewise for a done set-observer hit by a late success delivery. -/
theorem done_is_absorbing_witness :
    (((⟨⟨false, true, Except.ok 5⟩, 2⟩ : CreateSessionDescriptionObserver).applyOp
          (CSDOp.createFailure "late" 3)).condition.done = true
      ∧ (CreateSessionDescriptionObserver.get_result (fun _ => "")
          (⟨⟨false, true, Except.ok 5⟩, 2⟩ :
            CreateSessionDescriptionObserver)).isBlocked = false)
    ∧ (((⟨⟨false, true, Except.ok ()⟩, 2⟩ : SetSessionDescriptionObserver).applyOp
          SSDOp.setSuccess).condition.done = true
      ∧ (SetSessionDescriptionObserver.get_result (fun _ => "")
          (⟨⟨false, true, Except.ok ()⟩, 2⟩ :
            SetSessionDescriptionObserver)).isBlocked = false) :=
  ⟨done_is_absorbing.1 _ _ _ rfl, done_is_absorbing.2 _ _ _ rfl⟩

/-- C5: per-token delivery isolation of the dispatch shims — each entry
point updates exactly the bridge recovered from its token argument: every
bridge at a different address is left untouched, the bridge at the token
receives precisely its own on_success / on_failure call with the delivered
payload, and after a success delivery that bridge's get_result returns the
interface built from the pointer delivered with its own token. -/
theorem dispatch_shim_token_isolation
    (wc : Nat → Option CreateSessionDescriptionObserver)
    (ws : Nat → Option SetSessionDescriptionObserver)
    (token t : Nat) (desc : Ptr) (m : String) (c : Int)
    (oc : CreateSessionDescriptionObserver) (os : SetSessionDescriptionObserver)
    (fmt : AnyError → String)
    (hne : t ≠ token)
    (hc : wc token = some oc) (hs : ws token = some os)
    (hp : oc.condition.poisoned = false) :
    csd_observer_OnSuccess wc token desc t = wc t
    ∧ csd_observer_OnFailure wc token m c t = wc t
    ∧ ssd_observer_OnSuccess ws token t = ws t
    ∧ ssd_observer_OnFailure ws token m c t = ws t
    ∧ csd_observer_OnSuccess wc token desc token
      = some (oc.on_create_success desc).1
    ∧ csd_observer_OnFailure wc token m c token
      = some (oc.on_create_failure m c).1
    ∧ ssd_observer_OnSuccess ws token token = some os.on_set_success.1
    ∧ ssd_observer_OnFailure ws token m c token
      = some (os.on_set_failure m c).1
    ∧ CreateSessionDescriptionObserver.get_result fmt (oc.on_create_success desc).1
      = .returns (.ok (SessionDescriptionInterface.new desc)) := by
  refine ⟨?_, ?_, ?_, ?_, ?_, ?_, ?_, ?_, ?_⟩ <;>
    simp [csd_observer_OnSuccess, csd_observer_OnFailure,
      ssd_observer_OnSuccess, ssd_observer_OnFailure,
      get_object_from_cpp, hc, hs, hne,
      CreateSessionDescriptionObserver.get_result,
      CreateSessionDescriptionObserver.on_create_success, hp,
      SessionDescriptionInterface.new]

/-- Witness for `dispatch_shim_token_isolation`: two-bridge worlds with a
live fresh bridge at token 3 and nothing at 4; delivery to token 3 leaves
address 4 unchanged and completes exactly the bridge at 3. -/
theorem dispatch_shim_token_isolation_witness :
    csd_observer_OnSuccess
        (fun n => if n = 3 then some CreateSessionDescriptionObserver.new else none)
        3 9 4
      = (fun n => if n = 3 then some CreateSessionDescriptionObserver.new else none) 4
    ∧ csd_observer_OnFailure
        (fun n => if n = 3 then some CreateSessionDescriptionObserver.new else none)
        3 "boom" 2 4
      = (fun n => if n = 3 then some CreateSessionDescriptionObserver.new else none) 4
    ∧ ssd_observer_OnSuccess
        (fun n => if n = 3 then some SetSessionDescriptionObserver.new else none) 3 4
      = (fun n => if n = 3 then some SetSessionDescriptionObserver.new else none) 4
    ∧ ssd_observer_OnFailure
        (fun n => if n = 3 then some SetSessionDescriptionObserver.new else none)
        3 "boom" 2 4
      = (fun n => if n = 3 then some SetSessionDescriptionObserver.new else none) 4
    ∧ csd_observer_OnSuccess
        (fun n => if n = 3 then some CreateSessionDescriptionObserver.new else none)
        3 9 3
      = some (CreateSessionDescriptionObserver.on_create_success
          CreateSessionDescriptionObserver.new 9).1
    ∧ csd_observer_OnFailure
        (fun n => if n = 3 then some CreateSessionDescriptionObserver.new else none)
        3 "boom" 2 3
      = some (CreateSessionDescriptionObserver.on_create_failure
          CreateSessionDescriptionObserver.new "boom" 2).1
    ∧ ssd_observer_OnSuccess
        (fun n => if n = 3 then some SetSessionDescriptionObserver.new else none) 3 3
      = some (SetSessionDescriptionObserver.on_set_success
          SetSessionDescriptionObserver.new).1
    ∧ ssd_observer_OnFailure
        (fun n => if n = 3 then some SetSessionDescriptionObserver.new else none)
        3 "boom" 2 3
      = some (SetSessionDescriptionObserver.on_set_failure
          SetSessionDescriptionObserver.new "boom" 2).1
    ∧ CreateSessionDescriptionObserver.get_result (fun _ => "")
        (CreateSessionDescriptionObserver.on_create_success
          CreateSessionDescriptionObserver.new 9).1
      = .returns (.ok (SessionDescriptionInterface.new 9)) :=
  dispatch_shim_token_isolation
    (fun n => if n = 3 then some CreateSessionDescriptionObserver.new else none)
    (fun n => if n = 3 then some SetSessionDescriptionObserver.new else none)
    3 4 9 "boom" 2
    CreateSessionDescriptionObserver.new SetSessionDescriptionObserver.new
    (fun _ => "") (by decide) rfl rfl rfl

/-- C6: get_result with a poisoned completion-cell mutex fails with the
MutexPoisoned error for the respective observer — the fault is surfaced as
an Err to the waiting call, never swallowed. -/
theorem get_result_poisoned_mutex
    (oc : CreateSessionDescriptionObserver) (os : SetSessionDescriptionObserver)
    (fmt : AnyError → String)
    (hc : oc.condition.poisoned = true) (hs : os.condition.poisoned = true) :
    CreateSessionDescriptionObserver.get_result fmt oc
      = .returns (.error (.ringRtc
          (.MutexPoisoned "CreateSessionDescription condvar mutex")))
    ∧ SetSessionDescriptionObserver.get_result fmt os
      = .returns (.error (.ringRtc
          (.MutexPoisoned "SetSessionDescription condvar mutex"))) := by
  simp [CreateSessionDescriptionObserver.get_result,
    SetSessionDescriptionObserver.get_result, hc, hs]

/-- Witness for `get_result_poisoned_mutex` at concrete poisoned cells. -/
theorem get_result_poisoned_mutex_witness :
    CreateSessionDescriptionObserver.get_result (fun _ => "")
        (⟨⟨true, false, Except.ok 0⟩, 0⟩ : CreateSessionDescriptionObserver)
      = .returns (.error (.ringRtc
          (.MutexPoisoned "CreateSessionDescription condvar mutex")))
    ∧ SetSessionDescriptionObserver.get_result (fun _ => "")
        (⟨⟨true, false, Except.ok ()⟩, 0⟩ : SetSessionDescriptionObserver)
      = .returns (.error (.ringRtc
          (.MutexPoisoned "SetSessionDescription condvar mutex"))) :=
  get_result_poisoned_mutex _ _ _ rfl rfl

/-- C7 (counterexample): an input with an interior NUL byte cannot be
converted by CString::new, and create_sdp_offer then fails with the
NulError propagated by the question-mark operator — not with
ConvertSdpOffer — even against an engine that accepts every string (the
engine is never called on this path). -/
theorem create_sdp_offer_nul_cex :
    SessionDescriptionInterface.create_sdp_offer (fun _ => 1)
        (String.mk [Char.ofNat 97, Char.ofNat 0, Char.ofNat 98])
      = .error .nulError
    ∧ decide ((AnyError.nulError) = .ringRtc .ConvertSdpOffer) = false := by
  exact ⟨rfl, rfl⟩

/-- C7 (amended): create_sdp_offer / create_sdp_answer are total case
analyses — an input containing a NUL byte fails synchronously with the
NulError from CString::new (a distinct error from ConvertSdpOffer or
ConvertSdpAnswer); an input without NUL bytes fails with ConvertSdpOffer
(resp. ConvertSdpAnswer) exactly when the foreign engine returns a null
object, and otherwise succeeds wrapping the non-null object the engine
returned — success never wraps null. -/
theorem create_sdp_error_cases
    (createOffer createAnswer : String → Ptr) (s : String) :
    (s.data.contains (Char.ofNat 0) = true →
      SessionDescriptionInterface.create_sdp_offer createOffer s = .error .nulError
      ∧ SessionDescriptionInterface.create_sdp_answer createAnswer s
        = .error .nulError)
    ∧ (s.data.contains (Char.ofNat 0) = false →
      SessionDescriptionInterface.create_sdp_offer createOffer s
        = (if createOffer s = 0 then .error (.ringRtc .ConvertSdpOffer)
           else .ok (SessionDescriptionInterface.new (createOffer s)))
      ∧ SessionDescriptionInterface.create_sdp_answer createAnswer s
        = (if createAnswer s = 0 then .error (.ringRtc .ConvertSdpAnswer)
           else .ok (SessionDescriptionInterface.new (createAnswer s)))) := by
  constructor
  · intro h
    constructor
    · unfold SessionDescriptionInterface.create_sdp_offer CString.new
      rw [h]
      rfl
    · unfold SessionDescriptionInterface.create_sdp_answer CString.new
      rw [h]
      rfl
  · intro h
    constructor
    · unfold SessionDescriptionInterface.create_sdp_offer CString.new
      rw [h]
      rfl
    · unfold SessionDescriptionInterface.create_sdp_answer CString.new
      rw [h]
      rfl

/-- Witness for `create_sdp_error_cases`: a NUL-carrying input fails with
NulError; the clean input "v=0" fails with ConvertSdpOffer against an
engine returning null and succeeds wrapping pointer 7 against an engine
returning 7. -/
theorem create_sdp_error_cases_witness :
    SessionDescriptionInterface.create_sdp_offer (fun _ => 1)
        (String.mk [Char.ofNat 0])
      = .error .nulError
    ∧ SessionDescriptionInterface.create_sdp_offer (fun _ => 0) "v=0"
      = .error (.ringRtc .ConvertSdpOffer)
    ∧ SessionDescriptionInterface.create_sdp_offer (fun _ => 7) "v=0"
      = .ok (SessionDescriptionInterface.new 7) := by
  refine ⟨((create_sdp_error_cases (fun _ => 1) (fun _ => 1)
      (String.mk [Char.ofNat 0])).1 (by decide)).1, ?_, ?_⟩
  · have h := ((create_sdp_error_cases (fun _ => 0) (fun _ => 0) "v=0").2
      (by decide)).1
    simpa using h
  · have h := ((create_sdp_error_cases (fun _ => 7) (fun _ => 7) "v=0").2
      (by decide)).1
    simpa using h

/-- Helper: looking up the freshly appended element of a list at the old
length. -/
theorem get?_append_length (l : List α) (a : α) :
    (l ++ [a]).get? l.length = some a := by
  induction l with
  | nil => rfl
  | cons x xs ih => exact ih

/-- C8: resource discipline of get_description — when the foreign engine
returns a null string pointer, the call fails with GetOfferDescription and
its event trace is empty (nothing is freed); when it returns a non-null
buffer, the call returns the copied contents and its event trace is exactly
the copy of that buffer followed by the free of that same buffer, so on
every exit path a held buffer is freed exactly once and only after its
contents were copied. -/
theorem get_description_frees_buffer
    (getOfferDescription : Ptr → Ptr) (readCStr : Ptr → String)
    (sd : SessionDescriptionInterface) :
    (getOfferDescription sd.sd_interface = 0 →
      sd.get_description getOfferDescription readCStr
        = (.error (.ringRtc .GetOfferDescription), []))
    ∧ (getOfferDescription sd.sd_interface ≠ 0 →
      sd.get_description getOfferDescription readCStr
        = (.ok (readCStr (getOfferDescription sd.sd_interface)),
            [.copyString (getOfferDescription sd.sd_interface),
             .free (getOfferDescription sd.sd_interface)])
      ∧ (sd.get_description getOfferDescription readCStr).2.count
          (.free (getOfferDescription sd.sd_interface)) = 1) := by
  constructor
  · intro h
    simp [SessionDescriptionInterface.get_description, h]
  · intro h
    constructor
    · simp [SessionDescriptionInterface.get_description, h]
    · simp [SessionDescriptionInterface.get_description, h, List.count_cons]

/-- Witness for `get_description_frees_buffer`: against an engine returning
the null buffer the call errs with an empty trace; against an engine
returning buffer 5 with contents "v=0" the call returns "v=0" and the trace
is one copy and one free of buffer 5. -/
theorem get_description_frees_buffer_witness :
    SessionDescriptionInterface.get_description (fun _ => 0) (fun _ => "v=0")
        (SessionDescriptionInterface.new 3)
      = (.error (.ringRtc .GetOfferDescription), [])
    ∧ SessionDescriptionInterface.get_description (fun _ => 5) (fun _ => "v=0")
        (SessionDescriptionInterface.new 3)
      = (.ok "v=0", [.copyString 5, .free 5])
    ∧ (SessionDescriptionInterface.get_description (fun _ => 5) (fun _ => "v=0")
        (SessionDescriptionInterface.new 3)).2.count (.free 5) = 1 := by
  refine ⟨(get_description_frees_buffer (fun _ => 0) (fun _ => "v=0")
      (SessionDescriptionInterface.new 3)).1 rfl, ?_, ?_⟩
  · exact ((get_description_frees_buffer (fun _ => 5) (fun _ => "v=0")
      (SessionDescriptionInterface.new 3)).2 (by decide)).1
  · exact ((get_description_frees_buffer (fun _ => 5) (fun _ => "v=0")
      (SessionDescriptionInterface.new 3)).2 (by decide)).2

/-- C9: round trip against the pass-through engine — for every engine state
and every well-formed description text (no NUL byte), create_sdp_offer
followed by get_description succeeds and returns the text unchanged. -/
theorem roundtrip_passthrough (e : PassthroughEngine) (s : String)
    (h : s.data.contains (Char.ofNat 0) = false) :
    roundTripOffer e s = .ok s := by
  have h1 : SessionDescriptionInterface.create_sdp_offer
      (fun t => (e.createOffer t).2) s
      = .ok (SessionDescriptionInterface.new (e.store.length + 1)) := by
    unfold SessionDescriptionInterface.create_sdp_offer CString.new
    rw [h]
    simp [PassthroughEngine.createOffer]
    rfl
  unfold roundTripOffer
  rw [h1]
  simp [SessionDescriptionInterface.get_description,
    PassthroughEngine.getOfferDescription, PassthroughEngine.readDescription,
    PassthroughEngine.readCStr, PassthroughEngine.createOffer,
    SessionDescriptionInterface.new, get?_append_length]

/-- Witness for `roundtrip_passthrough` on the empty engine and "v=0". -/
theorem roundtrip_passthrough_witness :
    roundTripOffer (PassthroughEngine.mk []) "v=0" = .ok "v=0" :=
  roundtrip_passthrough (PassthroughEngine.mk []) "v=0" (by decide)

/-- C10: a callback delivery that finds the completion-cell mutex poisoned
is a silent no-op — the lock attempt fails, the observer state (done flag
and stored value included) is unchanged, and the condvar is not notified,
so a blocked result() caller is not woken by that delivery. -/
theorem callbacks_poisoned_noop
    (oc : CreateSessionDescriptionObserver) (os : SetSessionDescriptionObserver)
    (desc : Ptr) (m : String) (c : Int)
    (hc : oc.condition.poisoned = true) (hs : os.condition.poisoned = true) :
    oc.on_create_success desc = (oc, false)
    ∧ oc.on_create_failure m c = (oc, false)
    ∧ os.on_set_success = (os, false)
    ∧ os.on_set_failure m c = (os, false) := by
  refine ⟨?_, ?_, ?_, ?_⟩ <;>
    simp [CreateSessionDescriptionObserver.on_create_success,
      CreateSessionDescriptionObserver.on_create_failure,
      SetSessionDescriptionObserver.on_set_success,
      SetSessionDescriptionObserver.on_set_failure, hc, hs]

/-- Witness for `callbacks_poisoned_noop` at concrete poisoned pending
cells. -/
theorem callbacks_poisoned_noop_witness :
    (⟨⟨true, false, Except.ok 0⟩, 0⟩ :
        CreateSessionDescriptionObserver).on_create_success 7
      = (⟨⟨true, false, Except.ok 0⟩, 0⟩, false)
    ∧ (⟨⟨true, false, Except.ok 0⟩, 0⟩ :
        CreateSessionDescriptionObserver).on_create_failure "boom" 2
      = (⟨⟨true, false, Except.ok 0⟩, 0⟩, false)
    ∧ (⟨⟨true, false, Except.ok ()⟩, 0⟩ :
        SetSessionDescriptionObserver).on_set_success
      = (⟨⟨true, false, Except.ok ()⟩, 0⟩, false)
    ∧ (⟨⟨true, false, Except.ok ()⟩, 0⟩ :
        SetSessionDescriptionObserver).on_set_failure "boom" 2
      = (⟨⟨true, false, Except.ok ()⟩, 0⟩, false) :=
  callbacks_poisoned_noop _ _ 7 "boom" 2 rfl rfl
